import Mathlib

set_option linter.unusedVariables false

/-
Formal model of the Meta-Bot-Friend-FX autotrading engine.

Shallow embedding conventions:
  * JavaScript numbers are modelled as exact rationals (ℚ).
  * `Math.sqrt` is not rational-valued, so every definition that (directly or
    through `calculateBollingerBands`) uses it takes the square-root function
    as an explicit parameter `sqrt : ℚ → ℚ`; theorems quantify over it, and
    concrete evaluations only ever exercise code paths that never apply it.
  * `Math.round(x)` is `round x = ⌊x + 1/2⌋` (both round halves up).
  * Fallible indexing (`candles[len-1]?.close || 0`) becomes a total function
    with the same fallback value.
  * UI side effects (toasts, sounds), clock-generated log ids/timestamps and
    `localStorage` persistence are outside the model; log entries keep their
    action kind, symbol, side, price, profit and reason text.
-/

namespace FX

/-- `CandleData` from `lib/tradingData.ts`. -/
structure CandleData where
  time : ℤ
  «open» : ℚ
  high : ℚ
  low : ℚ
  close : ℚ
  volume : ℚ
deriving DecidableEq, Repr, Inhabited

/-- The `'BUY' | 'SELL' | 'NONE'` union of `SignalResult.signal`. -/
inductive Signal where
  | BUY | SELL | NONE
deriving DecidableEq, Repr

/-- The `TradingStrategy` union type from `lib/indicators.ts`. -/
inductive TradingStrategy where
  | trend | mean_reversion | breakout | momentum
deriving DecidableEq, Repr

/-- `StrategyConfig` from `lib/indicators.ts`. -/
structure StrategyConfig where
  name : TradingStrategy
  enabled : Bool
  weight : ℚ
  minConfidence : ℚ
deriving DecidableEq, Repr

/-- `MACDValues` from `lib/indicators.ts`. -/
structure MACDValues where
  macd : ℚ
  signal : ℚ
  histogram : ℚ
deriving DecidableEq, Repr

/-- `BollingerValues` from `lib/indicators.ts`. -/
structure BollingerValues where
  upper : ℚ
  middle : ℚ
  lower : ℚ
  bandwidth : ℚ
deriving DecidableEq, Repr

/-- `StochasticValues` from `lib/indicators.ts`. -/
structure StochasticValues where
  k : ℚ
  d : ℚ
deriving DecidableEq, Repr

/-- `SignalResult` from `lib/indicators.ts`. -/
structure SignalResult where
  signal : Signal
  confidence : ℚ
  strategy : TradingStrategy
  reason : String
deriving DecidableEq, Repr

/-- `candles[candles.length - 1]?.close || 0`. -/
def lastCloseOrZero (candles : List CandleData) : ℚ :=
  match candles.getLast? with
  | some c => c.close
  | none => 0

/-- JavaScript `array.slice(-n)`: the last `n` elements (the whole array
when `n = 0`, since `slice(-0)` is `slice(0)`). -/
def sliceLast (l : List α) (n : ℕ) : List α :=
  if n = 0 then l else l.drop (l.length - n)

/-- Differences of consecutive elements, `l[i+1] - l[i]`. -/
def consecDiffs : List ℚ → List ℚ
  | a :: b :: rest => (b - a) :: consecDiffs (b :: rest)
  | _ => []

/-- Smallest element of a list (`Math.min(...xs)`); 0 on the empty list,
which no modelled call path reaches. -/
def listMin : List ℚ → ℚ
  | [] => 0
  | x :: xs => xs.foldl min x

/-- Largest element of a list (`Math.max(...xs)`); 0 on the empty list,
which no modelled call path reaches. -/
def listMax : List ℚ → ℚ
  | [] => 0
  | x :: xs => xs.foldl max x

/-- JavaScript `Number.prototype.toFixed(digits)` on an exact rational:
sign, then the magnitude rounded half-up at `digits` decimal places,
rendered with exactly `digits` fractional digits. -/
def toFixed (digits : ℕ) (x : ℚ) : String :=
  let sign := if x < 0 then "-" else ""
  let scaled := (round (|x| * 10 ^ digits)).toNat
  if digits = 0 then sign ++ toString scaled
  else
    let p := 10 ^ digits
    let frac := toString (scaled % p)
    let pad := String.mk (List.replicate (digits - frac.length) '0')
    sign ++ toString (scaled / p) ++ "." ++ pad ++ frac

/-- `calculateRSI` from `lib/indicators.ts`. -/
def calculateRSI (candles : List CandleData) (period : ℕ) : ℚ :=
  if candles.length < period + 1 then 50
  else
    let closes := (candles.map (·.close)).drop (candles.length - (period + 1))
    let gl := (consecDiffs closes).foldl
      (fun (gl : ℚ × ℚ) change =>
        if change > 0 then (gl.1 + change, gl.2) else (gl.1, gl.2 - change))
      (0, 0)
    let avgGain := gl.1 / period
    let avgLoss := gl.2 / period
    if avgLoss = 0 then 100
    else
      let rs := avgGain / avgLoss
      100 - 100 / (1 + rs)

/-- `calculateEMA` from `lib/indicators.ts`. -/
def calculateEMA (candles : List CandleData) (period : ℕ) : ℚ :=
  if candles.length < period then lastCloseOrZero candles
  else
    let closes := candles.map (·.close)
    let multiplier : ℚ := 2 / (period + 1)
    let seed := (closes.take period).sum / period
    (closes.drop period).foldl (fun ema c => (c - ema) * multiplier + ema) seed

/-- `calculateSMA` from `lib/indicators.ts`. -/
def calculateSMA (candles : List CandleData) (period : ℕ) : ℚ :=
  if candles.length < period then lastCloseOrZero candles
  else ((sliceLast candles period).map (·.close)).sum / period

/-- `calculateMACD` from `lib/indicators.ts` (the source computes the signal
line as `macdLine * 0.9`, a simplified proportional follow). -/
def calculateMACD (candles : List CandleData) (fastPeriod slowPeriod signalPeriod : ℕ) :
    MACDValues :=
  if candles.length < slowPeriod + signalPeriod then ⟨0, 0, 0⟩
  else
    let fastEMA := calculateEMA candles fastPeriod
    let slowEMA := calculateEMA candles slowPeriod
    let macdLine := fastEMA - slowEMA
    let signalLine := macdLine * 0.9
    ⟨macdLine, signalLine, macdLine - signalLine⟩

/-- `calculateBollingerBands` from `lib/indicators.ts`; `sqrt` interprets
`Math.sqrt` (only the sufficient-data branch applies it). -/
def calculateBollingerBands (sqrt : ℚ → ℚ) (candles : List CandleData)
    (period : ℕ) (stdDev : ℚ) : BollingerValues :=
  if candles.length < period then
    let price := lastCloseOrZero candles
    ⟨price, price, price, 0⟩
  else
    let sma := calculateSMA candles period
    let slice := sliceLast candles period
    let variance := (slice.map (fun c => (c.close - sma) ^ 2)).sum / (period : ℚ)
    let std := sqrt variance
    let upper := sma + stdDev * std
    let lower := sma - stdDev * std
    let bandwidth := (upper - lower) / sma * 100
    ⟨upper, sma, lower, bandwidth⟩

/-- True range of candle `b` given previous candle `a`, for each adjacent
pair, in order (`tr` at loop index `i` uses `candles[i]` and `candles[i-1]`). -/
def trueRanges : List CandleData → List ℚ
  | a :: b :: rest =>
      max (b.high - b.low) (max |b.high - a.close| |b.low - a.close|) :: trueRanges (b :: rest)
  | _ => []

/-- `calculateATR` from `lib/indicators.ts`: the mean of the first `period`
true ranges (loop `i = 1 .. period`). -/
def calculateATR (candles : List CandleData) (period : ℕ) : ℚ :=
  if candles.length < period + 1 then 0
  else ((trueRanges candles).take period).sum / period

/-- `calculateStochastic` from `lib/indicators.ts` (`%D` is a copy of `%K`
in the source). -/
def calculateStochastic (candles : List CandleData) (kPeriod dPeriod : ℕ) :
    StochasticValues :=
  if candles.length < kPeriod then ⟨50, 50⟩
  else
    let slice := sliceLast candles kPeriod
    let lowestLow := listMin (slice.map (·.low))
    let highestHigh := listMax (slice.map (·.high))
    let currentClose := lastCloseOrZero candles
    let k := (currentClose - lowestLow) / (highestHigh - lowestLow) * 100
    ⟨k, k⟩

/-- JavaScript `String.prototype.includes` as a decidable infix test on the
character list. -/
def strIncludes (s pattern : String) : Bool :=
  decide (pattern.toList <:+: s.toList)

/-- `detectTrendSignal` from `lib/indicators.ts`. -/
def detectTrendSignal (candles : List CandleData) : SignalResult :=
  if candles.length < 50 then ⟨.NONE, 0, .trend, "Insufficient data"⟩
  else
    let ema20 := calculateEMA candles 20
    let ema50 := calculateEMA candles 50
    let currentPrice := lastCloseOrZero candles
    let rsi := calculateRSI candles 14
    if currentPrice > ema20 ∧ ema20 > ema50 ∧ rsi > 40 ∧ rsi < 70 then
      ⟨.BUY, 75, .trend,
        "Uptrend: Price " ++ toFixed 5 currentPrice ++ " > EMA20 " ++ toFixed 5 ema20 ++
          " > EMA50 " ++ toFixed 5 ema50⟩
    else if currentPrice < ema20 ∧ ema20 < ema50 ∧ rsi > 30 ∧ rsi < 60 then
      ⟨.SELL, 75, .trend,
        "Downtrend: Price " ++ toFixed 5 currentPrice ++ " < EMA20 " ++ toFixed 5 ema20 ++
          " < EMA50 " ++ toFixed 5 ema50⟩
    else ⟨.NONE, 0, .trend, "No clear trend"⟩

/-- `detectMeanReversionSignal` from `lib/indicators.ts`. -/
def detectMeanReversionSignal (sqrt : ℚ → ℚ) (candles : List CandleData) : SignalResult :=
  if candles.length < 20 then ⟨.NONE, 0, .mean_reversion, "Insufficient data"⟩
  else
    let bollinger := calculateBollingerBands sqrt candles 20 2
    let currentPrice := lastCloseOrZero candles
    let rsi := calculateRSI candles 14
    if currentPrice ≤ bollinger.lower ∧ rsi < 35 then
      ⟨.BUY, 70, .mean_reversion,
        "Oversold: Price at lower Bollinger band, RSI " ++ toFixed 1 rsi⟩
    else if currentPrice ≥ bollinger.upper ∧ rsi > 65 then
      ⟨.SELL, 70, .mean_reversion,
        "Overbought: Price at upper Bollinger band, RSI " ++ toFixed 1 rsi⟩
    else ⟨.NONE, 0, .mean_reversion, "No mean reversion signal"⟩

/-- `detectBreakoutSignal` from `lib/indicators.ts`; `candles.slice(-11, -1)`
is the 10 candles preceding the current one. -/
def detectBreakoutSignal (candles : List CandleData) : SignalResult :=
  if candles.length < 20 then ⟨.NONE, 0, .breakout, "Insufficient data"⟩
  else
    let currentCandle := candles.getD (candles.length - 1) default
    let previousCandle := candles.getD (candles.length - 2) default
    let lookback := (candles.drop (candles.length - 11)).take 10
    let recentHighs := listMax (lookback.map (·.high))
    let recentLows := listMin (lookback.map (·.low))
    let atr := calculateATR candles 14
    let breakoutThreshold := atr * 0.5
    if currentCandle.close > recentHighs ∧
        currentCandle.close - previousCandle.close > breakoutThreshold then
      ⟨.BUY, 65, .breakout, "Bullish breakout above " ++ toFixed 5 recentHighs⟩
    else if currentCandle.close < recentLows ∧
        previousCandle.close - currentCandle.close > breakoutThreshold then
      ⟨.SELL, 65, .breakout, "Bearish breakout below " ++ toFixed 5 recentLows⟩
    else ⟨.NONE, 0, .breakout, "No breakout detected"⟩

/-- `detectMomentumSignal` from `lib/indicators.ts`. -/
def detectMomentumSignal (candles : List CandleData) : SignalResult :=
  if candles.length < 30 then ⟨.NONE, 0, .momentum, "Insufficient data"⟩
  else
    let macd := calculateMACD candles 12 26 9
    let stochastic := calculateStochastic candles 14 3
    let rsi := calculateRSI candles 14
    if macd.histogram > 0 ∧ macd.macd > macd.signal ∧
        stochastic.k < 80 ∧ rsi > 50 ∧ rsi < 75 then
      ⟨.BUY, 70, .momentum,
        "Bullish momentum: MACD " ++ toFixed 5 macd.macd ++ ", RSI " ++ toFixed 1 rsi ++
          ", Stoch " ++ toFixed 1 stochastic.k⟩
    else if macd.histogram < 0 ∧ macd.macd < macd.signal ∧
        stochastic.k > 20 ∧ rsi < 50 ∧ rsi > 25 then
      ⟨.SELL, 70, .momentum,
        "Bearish momentum: MACD " ++ toFixed 5 macd.macd ++ ", RSI " ++ toFixed 1 rsi ++
          ", Stoch " ++ toFixed 1 stochastic.k⟩
    else ⟨.NONE, 0, .momentum, "No momentum signal"⟩

/-- The detector dispatch of `detectMultiStrategySignal`'s `switch`. -/
def runStrategy (sqrt : ℚ → ℚ) (candles : List CandleData) : TradingStrategy → SignalResult
  | .trend => detectTrendSignal candles
  | .mean_reversion => detectMeanReversionSignal sqrt candles
  | .breakout => detectBreakoutSignal candles
  | .momentum => detectMomentumSignal candles

/-- The collection loop of `detectMultiStrategySignal`: run each enabled
strategy and keep results that are not `NONE` and meet that strategy's
minimum confidence. -/
def collectSignals (sqrt : ℚ → ℚ) (candles : List CandleData) :
    List StrategyConfig → List SignalResult
  | [] => []
  | strategy :: rest =>
    if strategy.enabled then
      let signal := runStrategy sqrt candles strategy.name
      if signal.signal ≠ .NONE ∧ signal.confidence ≥ strategy.minConfidence then
        signal :: collectSignals sqrt candles rest
      else collectSignals sqrt candles rest
    else collectSignals sqrt candles rest

/-- The aggregation tail of `detectMultiStrategySignal` (after the collection
loop): plurality vote between the surviving BUY and SELL results. -/
def aggregateSignals (signals : List SignalResult) : SignalResult :=
  if signals.isEmpty then ⟨.NONE, 0, .trend, "No strategy generated signal"⟩
  else
    let buySignals := signals.filter fun s => decide (s.signal = .BUY)
    let sellSignals := signals.filter fun s => decide (s.signal = .SELL)
    if buySignals.length > sellSignals.length then
      { signal := .BUY
        confidence := (buySignals.map (·.confidence)).sum / (buySignals.length : ℚ)
        strategy := ((buySignals.head?).map (·.strategy)).getD .trend
        reason := String.intercalate " | " (buySignals.map (·.reason)) }
    else if sellSignals.length > buySignals.length then
      { signal := .SELL
        confidence := (sellSignals.map (·.confidence)).sum / (sellSignals.length : ℚ)
        strategy := ((sellSignals.head?).map (·.strategy)).getD .trend
        reason := String.intercalate " | " (sellSignals.map (·.reason)) }
    else ⟨.NONE, 0, .trend, "Conflicting signals"⟩

/-- `detectMultiStrategySignal` from `lib/indicators.ts`. -/
def detectMultiStrategySignal (sqrt : ℚ → ℚ) (candles : List CandleData)
    (strategies : List StrategyConfig) : SignalResult :=
  aggregateSignals (collectSignals sqrt candles strategies)

/-- The `"bullish" | "bearish" | "neutral"` union used by the Continuation
Analyzer's per-indicator opinions. -/
inductive Direction where
  | bullish | bearish | neutral
deriving DecidableEq, Repr

/-- One element of the `signals` array of `analyzeMarketForContinuation`. -/
structure IndicatorSignal where
  indicator : String
  direction : Direction
  weight : ℚ
deriving DecidableEq, Repr

/-- The `"BUY" | "SELL"` union of `Position.type`. -/
inductive PositionSide where
  | BUY | SELL
deriving DecidableEq, Repr

/-- `ContinuationAnalysis` from `useAutoTrader`; the returned `willContinue`
is always a boolean (the `null` placeholder is replaced before returning),
and the human-readable `reason` string (consumed only by toasts) is not
modelled. -/
structure ContinuationAnalysis where
  willContinue : Bool
  confidence : ℚ
deriving DecidableEq, Repr

/-- The `signals` array built by `analyzeMarketForContinuation` (steps 1-5:
RSI, MACD, Stochastic, EMA trend, Bollinger position), in push order. -/
def continuationSignals (sqrt : ℚ → ℚ) (candles : List CandleData)
    (positionType : PositionSide) : List IndicatorSignal :=
  let currentPrice := lastCloseOrZero candles
  let rsi := calculateRSI candles 14
  let rsiSignals : List IndicatorSignal :=
    match positionType with
    | .BUY =>
      if rsi > 70 then [⟨"RSI", .bearish, 25⟩]
      else if rsi < 30 then [⟨"RSI", .bullish, 20⟩]
      else if rsi > 50 then [⟨"RSI", .bullish, 15⟩]
      else []
    | .SELL =>
      if rsi < 30 then [⟨"RSI", .bullish, 25⟩]
      else if rsi > 70 then [⟨"RSI", .bearish, 20⟩]
      else if rsi < 50 then [⟨"RSI", .bearish, 15⟩]
      else []
  let macd := calculateMACD candles 12 26 9
  let macdSignals : List IndicatorSignal :=
    match positionType with
    | .BUY =>
      if macd.histogram > 0 ∧ macd.macd > macd.signal then [⟨"MACD", .bullish, 25⟩]
      else if macd.histogram < 0 then [⟨"MACD", .bearish, 25⟩]
      else [⟨"MACD", .neutral, 10⟩]
    | .SELL =>
      if macd.histogram < 0 ∧ macd.macd < macd.signal then [⟨"MACD", .bearish, 25⟩]
      else if macd.histogram > 0 then [⟨"MACD", .bullish, 25⟩]
      else [⟨"MACD", .neutral, 10⟩]
  let stoch := calculateStochastic candles 14 3
  let stochSignals : List IndicatorSignal :=
    match positionType with
    | .BUY =>
      if stoch.k > 80 then [⟨"Stoch", .bearish, 20⟩]
      else if stoch.k < 20 then [⟨"Stoch", .bullish, 15⟩]
      else if stoch.k > stoch.d ∧ stoch.k < 80 then [⟨"Stoch", .bullish, 15⟩]
      else []
    | .SELL =>
      if stoch.k < 20 then [⟨"Stoch", .bullish, 20⟩]
      else if stoch.k > 80 then [⟨"Stoch", .bearish, 15⟩]
      else if stoch.k < stoch.d ∧ stoch.k > 20 then [⟨"Stoch", .bearish, 15⟩]
      else []
  let ema20 := calculateEMA candles 20
  let ema50 := calculateEMA candles 50
  let trendSignals : List IndicatorSignal :=
    match positionType with
    | .BUY =>
      if currentPrice > ema20 ∧ ema20 > ema50 then [⟨"Trend", .bullish, 25⟩]
      else if currentPrice < ema20 ∧ ema20 < ema50 then [⟨"Trend", .bearish, 25⟩]
      else [⟨"Trend", .neutral, 10⟩]
    | .SELL =>
      if currentPrice < ema20 ∧ ema20 < ema50 then [⟨"Trend", .bearish, 25⟩]
      else if currentPrice > ema20 ∧ ema20 > ema50 then [⟨"Trend", .bullish, 25⟩]
      else [⟨"Trend", .neutral, 10⟩]
  let bollinger := calculateBollingerBands sqrt candles 20 2
  let bbSignals : List IndicatorSignal :=
    match positionType with
    | .BUY =>
      if currentPrice ≥ bollinger.upper then [⟨"BB", .bearish, 20⟩]
      else if currentPrice ≤ bollinger.lower then [⟨"BB", .bullish, 15⟩]
      else if currentPrice > bollinger.middle then [⟨"BB", .bullish, 10⟩]
      else []
    | .SELL =>
      if currentPrice ≤ bollinger.lower then [⟨"BB", .bullish, 20⟩]
      else if currentPrice ≥ bollinger.upper then [⟨"BB", .bearish, 15⟩]
      else if currentPrice < bollinger.middle then [⟨"BB", .bearish, 10⟩]
      else []
  rsiSignals ++ macdSignals ++ stochSignals ++ trendSignals ++ bbSignals

/-- The weighted bullish/bearish percentages of the Continuation Analyzer
(`bullishPercent`, `bearishPercent`), stated by direct summation. -/
def continuationPercents (sqrt : ℚ → ℚ) (candles : List CandleData)
    (positionType : PositionSide) : ℚ × ℚ :=
  let signals := continuationSignals sqrt candles positionType
  let totalWeight := (signals.map (·.weight)).sum
  let bullishScore :=
    ((signals.filter fun s => decide (s.direction = .bullish)).map (·.weight)).sum
  let bearishScore :=
    ((signals.filter fun s => decide (s.direction = .bearish)).map (·.weight)).sum
  (if totalWeight > 0 then bullishScore / totalWeight * 100 else 50,
   if totalWeight > 0 then bearishScore / totalWeight * 100 else 50)

/-- `analyzeMarketForContinuation` from `useAutoTrader`: score the five
indicator opinions with the source's accumulation loop, then apply the
greater-than-20-points decision rule (`peakPrice` is only mentioned in the
unmodelled reason text). -/
def analyzeMarketForContinuation (sqrt : ℚ → ℚ) (candles : List CandleData)
    (positionType : PositionSide) (peakPrice : ℚ) : ContinuationAnalysis :=
  let signals := continuationSignals sqrt candles positionType
  let scores := signals.foldl
    (fun (acc : ℚ × ℚ × ℚ) sig =>
      (if sig.direction = .bullish then acc.1 + sig.weight else acc.1,
       if sig.direction = .bearish then acc.2.1 + sig.weight else acc.2.1,
       acc.2.2 + sig.weight))
    (0, 0, 0)
  let bullishScore := scores.1
  let bearishScore := scores.2.1
  let totalWeight := scores.2.2
  let bullishPercent := if totalWeight > 0 then bullishScore / totalWeight * 100 else 50
  let bearishPercent := if totalWeight > 0 then bearishScore / totalWeight * 100 else 50
  match positionType with
  | .BUY =>
    if bullishPercent > bearishPercent + 20 then ⟨true, (round bullishPercent : ℤ)⟩
    else if bearishPercent > bullishPercent + 20 then ⟨false, (round bearishPercent : ℤ)⟩
    else ⟨true, 50⟩
  | .SELL =>
    if bearishPercent > bullishPercent + 20 then ⟨true, (round bearishPercent : ℤ)⟩
    else if bullishPercent > bearishPercent + 20 then ⟨false, (round bullishPercent : ℤ)⟩
    else ⟨true, 50⟩

/-- `RiskConfig` from `lib/riskManagement.ts` (`maxMartingaleSteps` holds the
martingale step cap, a small non-negative integer, modelled as ℕ). -/
structure RiskConfig where
  riskPercent : ℚ
  maxOpenTrades : ℚ
  stopLossPips : ℚ
  takeProfitPips : ℚ
  maxDailyLoss : ℚ
  maxDrawdownPercent : ℚ
  maxCorrelationLoss : ℚ
  volatilityAdjustment : Bool
  atrMultiplier : ℚ
  useMartingale : Bool
  martingaleMultiplier : ℚ
  maxMartingaleSteps : ℕ
  sessionLimit : Bool
  sessionStartHour : ℤ
  sessionEndHour : ℤ
  maxTradesPerSession : ℚ
  newsFilter : Bool
  minNewsDistance : ℚ
deriving DecidableEq, Repr

/-- `DEFAULT_RISK_CONFIG` from `lib/riskManagement.ts`. -/
def DEFAULT_RISK_CONFIG : RiskConfig where
  riskPercent := 1
  maxOpenTrades := 3
  stopLossPips := 20
  takeProfitPips := 30
  maxDailyLoss := 500
  maxDrawdownPercent := 10
  maxCorrelationLoss := 200
  volatilityAdjustment := false
  atrMultiplier := 2
  useMartingale := false
  martingaleMultiplier := 2
  maxMartingaleSteps := 3
  sessionLimit := false
  sessionStartHour := 8
  sessionEndHour := 20
  maxTradesPerSession := 10
  newsFilter := false
  minNewsDistance := 30

/-- `DailyStats` from `lib/riskManagement.ts`. -/
structure DailyStats where
  date : String
  trades : ℕ
  wins : ℕ
  losses : ℕ
  profit : ℚ
  peakEquity : ℚ
  currentEquity : ℚ
  sessionTrades : ℕ
deriving DecidableEq, Repr

/-- Which of `canTrade`'s deny branches fired; stands for the corresponding
reason message string (whose text is presentational). -/
inductive CanTradeReason where
  | dailyLoss | drawdown | outsideSession | sessionMax | news
deriving DecidableEq, Repr

/-- The `{ allowed, reason? }` result of `canTrade`. -/
structure TradeGate where
  allowed : Bool
  reason : Option CanTradeReason
deriving DecidableEq, Repr

/-- `RiskManager.isNewsTime`: the source always returns `false`. -/
def isNewsTime : Bool := false

/-- `RiskManager.canTrade` from `lib/riskManagement.ts`; `hour` models
`new Date().getHours()` read when the session limit is checked. -/
def canTrade (cfg : RiskConfig) (stats : DailyStats) (hour : ℤ) (currentEquity : ℚ) :
    TradeGate :=
  if stats.profit ≤ -cfg.maxDailyLoss then ⟨false, some .dailyLoss⟩
  else
    let drawdown := (stats.peakEquity - currentEquity) / stats.peakEquity * 100
    if drawdown ≥ cfg.maxDrawdownPercent then ⟨false, some .drawdown⟩
    else if cfg.sessionLimit ∧ (hour < cfg.sessionStartHour ∨ hour ≥ cfg.sessionEndHour) then
      ⟨false, some .outsideSession⟩
    else if cfg.sessionLimit ∧ (stats.sessionTrades : ℚ) ≥ cfg.maxTradesPerSession then
      ⟨false, some .sessionMax⟩
    else if cfg.newsFilter ∧ isNewsTime = true then ⟨false, some .news⟩
    else ⟨true, none⟩

/-- The `'win' | 'loss'` values of `RiskManager.lastTradeResult`. -/
inductive TradeOutcome where
  | win | loss
deriving DecidableEq, Repr

/-- `RiskManager.getPipValue`. -/
def getPipValue (symbol : String) : ℚ :=
  if symbol = "XAUUSD" then 1 else if strIncludes symbol "JPY" then 0.01 else 0.0001

/-- `RiskManager.getPipDollarValue` (note: unlike the autotrader's inline
constant, the non-JPY branch scales with the account balance). -/
def getPipDollarValue (symbol : String) (accountBalance : ℚ) : ℚ :=
  if symbol = "XAUUSD" then 100
  else if strIncludes symbol "JPY" then 1000
  else 10 * (accountBalance / 10000)

/-- `RiskManager.getMaxLotSize`. -/
def getMaxLotSize (symbol : String) : ℚ :=
  if symbol = "XAUUSD" then 10 else 100

/-- `RiskManager.estimateATR` (`price || 1.0` falls back on `undefined`
and on `0`). -/
def estimateATR (symbol : String) (price : Option ℚ) : ℚ :=
  let basePrice := match price with
    | some p => if p = 0 then 1 else p
    | none => 1
  let volatility :=
    if strIncludes symbol "JPY" then 0.5 else if symbol = "XAUUSD" then 10 else 0.005
  basePrice * volatility * 0.1

/-- The tail of `RiskManager.calculateLotSize` after the risk amount is
fixed: pip value, optional volatility override, clamping to
`[0.01, maxLot]` and rounding to 2 decimals. `cachedATR` models
`atrCache.get(symbol)` (the `||` fallback also fires on a cached `0`). -/
def lotFromRisk (cfg : RiskConfig) (riskAmount : ℚ) (cachedATR : Option ℚ)
    (accountBalance : ℚ) (symbol : String) (stopLossPips : ℚ)
    (currentPrice : Option ℚ) : ℚ :=
  let pipDollarValue := getPipDollarValue symbol accountBalance
  let lotSize := riskAmount / (stopLossPips * pipDollarValue)
  let lotSize :=
    if cfg.volatilityAdjustment then
      let atr := match cachedATR with
        | some a => if a = 0 then estimateATR symbol currentPrice else a
        | none => estimateATR symbol currentPrice
      if atr > 0 then riskAmount / (atr * cfg.atrMultiplier * pipDollarValue) else lotSize
    else lotSize
  let lotSize := max 0.01 (min lotSize (getMaxLotSize symbol))
  ((round (lotSize * 100) : ℤ) : ℚ) / 100

/-- `RiskManager.calculateLotSize` from `lib/riskManagement.ts`;
`lastTradeResult` and `martingaleStep` are the manager's mutable fields. -/
def calculateLotSize (cfg : RiskConfig) (lastTradeResult : Option TradeOutcome)
    (martingaleStep : ℕ) (cachedATR : Option ℚ) (accountBalance : ℚ) (symbol : String)
    (stopLossPips : ℚ) (currentPrice : Option ℚ) : ℚ :=
  let riskAmount := accountBalance * (cfg.riskPercent / 100)
  let riskAmount :=
    if cfg.useMartingale ∧ lastTradeResult = some .loss ∧
        martingaleStep < cfg.maxMartingaleSteps then
      riskAmount * cfg.martingaleMultiplier ^ martingaleStep
    else riskAmount
  lotFromRisk cfg riskAmount cachedATR accountBalance symbol stopLossPips currentPrice

/-- The mutable fields of `RiskManager` that `recordTradeResult` updates. -/
structure RiskState where
  martingaleStep : ℕ
  lastTradeResult : Option TradeOutcome
  dailyStats : DailyStats
deriving DecidableEq, Repr

/-- `RiskManager.recordTradeResult` from `lib/riskManagement.ts`. -/
def recordTradeResult (cfg : RiskConfig) (st : RiskState) (profit : ℚ) : RiskState :=
  let lastTradeResult := if profit > 0 then some TradeOutcome.win else some TradeOutcome.loss
  let martingaleStep :=
    if profit > 0 then 0
    else if cfg.useMartingale then min (st.martingaleStep + 1) cfg.maxMartingaleSteps
    else st.martingaleStep
  let ds := st.dailyStats
  let currentEquity := ds.currentEquity + profit
  let dailyStats :=
    { ds with
      trades := ds.trades + 1
      wins := if profit > 0 then ds.wins + 1 else ds.wins
      losses := if profit > 0 then ds.losses else ds.losses + 1
      profit := ds.profit + profit
      currentEquity := currentEquity
      peakEquity := max ds.peakEquity currentEquity
      sessionTrades := ds.sessionTrades + 1 }
  ⟨martingaleStep, lastTradeResult, dailyStats⟩

/-- `Position` from `lib/tradingData.ts`. -/
structure Position where
  id : String
  symbol : String
  type : PositionSide
  volume : ℚ
  openPrice : ℚ
  currentPrice : ℚ
  profit : ℚ
  openTime : String
  stopLoss : Option ℚ
  takeProfit : Option ℚ
deriving DecidableEq, Repr

/-- `PositionTracker` from `useAutoTrader`. -/
structure PositionTracker where
  stopLoss : ℚ
  takeProfit : ℚ
  initialStopLoss : ℚ
  peakProfit : ℚ
  peakPrice : ℚ
deriving DecidableEq, Repr

/-- The `action` union of `AutoTradeLog`. -/
inductive LogAction where
  | OPEN | CLOSE | SL_HIT | TP_HIT | TRAILING | SIGNAL | RISK_BLOCK | MANUAL_CLOSE
  | QUICK_REENTRY
deriving DecidableEq, Repr

/-- An `AutoTradeLog` entry as passed to `addLog` (the clock-generated `id`
and `time` fields are outside the model). -/
structure AutoTradeLogEntry where
  action : LogAction
  symbol : String
  type : PositionSide
  price : ℚ
  profit : Option ℚ
  reason : String
deriving DecidableEq, Repr

/-- `AutoTraderConfig` from `useAutoTrader` (millisecond and step counts as
ℚ; `maxOpenTrades` compared against list lengths stays numeric). -/
structure AutoTraderConfig where
  enabled : Bool
  riskPercent : ℚ
  maxOpenTrades : ℚ
  takeProfitPips : ℚ
  stopLossPips : ℚ
  trailingStop : Bool
  trailingStopPips : ℚ
  cooldownMs : ℚ
  soundEnabled : Bool
  quickReentry : Bool
  reentryCooldownMs : ℚ
  maxDailyLoss : ℚ
  maxDrawdownPercent : ℚ
  volatilityAdjustment : Bool
  atrMultiplier : ℚ
  useMartingale : Bool
  martingaleMultiplier : ℚ
  maxMartingaleSteps : ℚ
  sessionLimit : Bool
  sessionStartHour : ℚ
  sessionEndHour : ℚ
  maxTradesPerSession : ℚ
  newsFilter : Bool
  useMultiStrategy : Bool
  strategyTrend : Bool
  strategyMeanReversion : Bool
  strategyBreakout : Bool
  strategyMomentum : Bool
  minStrategyConfidence : ℚ
  smartCashOut : Bool
  smartCashOutMinProfit : ℚ
  smartCashOutRetracePercent : ℚ
  smartCashOutConfidence : ℚ
  smartLossRecovery : Bool
  smartLossRecoveryConfidence : ℚ
  smartLossMaxLossPercent : ℚ
  manualConfirmLoss : Bool
  manualConfirmLossThreshold : ℚ

/-- `DEFAULT_CONFIG` from `useAutoTrader`. -/
def DEFAULT_CONFIG : AutoTraderConfig where
  enabled := false
  riskPercent := 1
  maxOpenTrades := 3
  takeProfitPips := 30
  stopLossPips := 20
  trailingStop := true
  trailingStopPips := 15
  cooldownMs := 30000
  soundEnabled := true
  quickReentry := true
  reentryCooldownMs := 2000
  maxDailyLoss := 500
  maxDrawdownPercent := 10
  volatilityAdjustment := false
  atrMultiplier := 2
  useMartingale := false
  martingaleMultiplier := 2
  maxMartingaleSteps := 3
  sessionLimit := false
  sessionStartHour := 8
  sessionEndHour := 20
  maxTradesPerSession := 10
  newsFilter := false
  useMultiStrategy := true
  strategyTrend := true
  strategyMeanReversion := true
  strategyBreakout := true
  strategyMomentum := true
  minStrategyConfidence := 60
  smartCashOut := true
  smartCashOutMinProfit := 5
  smartCashOutRetracePercent := 50
  smartCashOutConfidence := 70
  smartLossRecovery := true
  smartLossRecoveryConfidence := 70
  smartLossMaxLossPercent := 50
  manualConfirmLoss := false
  manualConfirmLossThreshold := 10

/-- The autotrader's inline per-symbol pip size (`useAutoTrader`,
`calculateProfit` and the tick loop). -/
def pipValueOf (symbol : String) : ℚ :=
  if symbol = "XAUUSD" then 1 else if strIncludes symbol "JPY" then 0.01 else 0.0001

/-- The autotrader's inline per-symbol dollars-per-pip-per-lot constant. -/
def pipDollarValueOf (symbol : String) : ℚ :=
  if symbol = "XAUUSD" then 100 else if strIncludes symbol "JPY" then 1000 else 10

/-- `calculateProfit` from `useAutoTrader`. -/
def calculateProfit (position : Position) (currentPrice : ℚ) : ℚ :=
  let pipValue := pipValueOf position.symbol
  let pips := match position.type with
    | .BUY => (currentPrice - position.openPrice) / pipValue
    | .SELL => (position.openPrice - currentPrice) / pipValue
  pips * pipDollarValueOf position.symbol * position.volume

/-- The tick loop's `isSLHit` test: the current price has crossed the
tracked stop-loss. -/
def slHit (pos : Position) (trackerStopLoss : ℚ) : Bool :=
  match pos.type with
  | .BUY => decide (pos.currentPrice ≤ trackerStopLoss)
  | .SELL => decide (pos.currentPrice ≥ trackerStopLoss)

/-- The tick loop's `lossPercent`: the unrealized loss as a percentage of
the full stop-loss-implied loss (`100` when the latter is not positive). -/
def slLossPercent (cfg : AutoTraderConfig) (pos : Position) : ℚ :=
  let profit := calculateProfit pos pos.currentPrice
  let pipDollarValue := pipDollarValueOf pos.symbol
  let potentialLoss := |profit|
  let maxLoss := cfg.stopLossPips * pipDollarValue * pos.volume
  if maxLoss > 0 then potentialLoss / maxLoss * 100 else 100

/-- The observable effects of the tick loop's stop-loss block on one
position: whether `onClosePosition` was called, the surviving tracker
(`none` = deleted), the win-streak counter, the log entries appended and
the profits passed to `recordTradeResult`. -/
structure SLOutcome where
  closed : Bool
  tracker : Option PositionTracker
  consecutiveWins : ℕ
  logs : List AutoTradeLogEntry
  recorded : List ℚ
deriving DecidableEq, Repr

/-- The stop-loss check of `useAutoTrader.tick` (the block guarded by
`isSLHit`, including smart loss recovery). `pairPresent` models
`pairs.find(p => p.symbol === pos.symbol)` succeeding and `candles` the
`candleSeries` entry for the symbol. The recovery log's
`${analysis.confidence}` is rendered with `toFixed 0`, which agrees with
JavaScript string interpolation on the whole numbers `confidence` takes. -/
def evalStopLossHit (sqrt : ℚ → ℚ) (cfg : AutoTraderConfig) (pos : Position)
    (tracker : PositionTracker) (consecutiveWins : ℕ) (pairPresent : Bool)
    (candles : Option (List CandleData)) : SLOutcome :=
  let currentPrice := pos.currentPrice
  let profit := calculateProfit pos currentPrice
  if slHit pos tracker.stopLoss then
    let recovery : Option ContinuationAnalysis :=
      if cfg.smartLossRecovery ∧ slLossPercent cfg pos ≤ cfg.smartLossMaxLossPercent ∧
          pairPresent = true then
        match candles with
        | some cs =>
          if cs.length > 30 then
            let analysis := analyzeMarketForContinuation sqrt cs pos.type tracker.stopLoss
            if analysis.willContinue = true ∧
                analysis.confidence ≥ cfg.smartLossRecoveryConfidence then
              some analysis
            else none
          else none
        | none => none
      else none
    match recovery with
    | some analysis =>
      { closed := false
        tracker := some { tracker with stopLoss := pos.openPrice }
        consecutiveWins := consecutiveWins
        logs := [{ action := .SIGNAL, symbol := pos.symbol, type := pos.type,
                   price := currentPrice, profit := some profit,
                   reason := "üîÑ LOSS RECOVERY: Analysis shows " ++
                     toFixed 0 analysis.confidence ++
                     "% confidence for recovery. Moving SL to breakeven!" }]
        recorded := [] }
    | none =>
      { closed := true
        tracker := none
        consecutiveWins := 0
        logs := [{ action := .SL_HIT, symbol := pos.symbol, type := pos.type,
                   price := currentPrice, profit := some profit,
                   reason := "üõë Stop Loss hit! Loss: $" ++ toFixed 2 profit }]
        recorded := [profit] }
  else
    { closed := false, tracker := some tracker, consecutiveWins := consecutiveWins,
      logs := [], recorded := [] }

/-- One pass of the tick loop's trailing-stop block for a position whose
tick price is `pos.currentPrice`: state is `(trailingBest entry, tracked
stop-loss)`. -/
def trailingStep (cfg : AutoTraderConfig) (pos : Position) (st : Option ℚ × ℚ) :
    Option ℚ × ℚ :=
  let best := st.1
  let stopLoss := st.2
  let currentPrice := pos.currentPrice
  let profit := calculateProfit pos currentPrice
  if cfg.trailingStop ∧ profit > 0 then
    let pipValue := pipValueOf pos.symbol
    let trailDist := cfg.trailingStopPips * pipValue
    match best with
    | none => (some currentPrice, stopLoss)
    | some currentBest =>
      let improved : Bool := match pos.type with
        | .BUY => decide (currentPrice > currentBest)
        | .SELL => decide (currentPrice < currentBest)
      if improved then
        let newSL := match pos.type with
          | .BUY => currentPrice - trailDist
          | .SELL => currentPrice + trailDist
        let shouldUpdate : Bool := match pos.type with
          | .BUY => decide (newSL > stopLoss)
          | .SELL => decide (newSL < stopLoss)
        if shouldUpdate then
          (some currentPrice, ((round (newSL * 100000) : ℤ) : ℚ) / 100000)
        else (some currentPrice, stopLoss)
      else (some currentBest, stopLoss)
  else (best, stopLoss)

/-- A sequence of trailing-stop recomputations: each tick refreshes the
position's external `currentPrice` and runs the trailing block. -/
def trailingRun (cfg : AutoTraderConfig) (pos : Position) (prices : List ℚ)
    (st : Option ℚ × ℚ) : Option ℚ × ℚ :=
  prices.foldl (fun st price => trailingStep cfg { pos with currentPrice := price } st) st

/-! ## Concrete inputs used by witnesses and counterexamples -/

/-- A square-root interpretation for concrete evaluations; every concrete
input below stays on code paths that never apply it. -/
def zeroSqrt : ℚ → ℚ := fun _ => 0

/-- A single flat candle. -/
def oneCandle : CandleData := ⟨0, 1, 1, 1, 1, 0⟩

/-- A flat candle at close `c`. -/
def flatCandle (c : ℚ) : CandleData := ⟨0, c, c, c, c, 0⟩

/-- 20 candles: 19 flat at 1 followed by a close at 1.2 that breaks the
preceding 10-candle high with zero ATR over the first 15 candles. -/
def breakoutCandles : List CandleData :=
  List.replicate 19 (flatCandle 1) ++ [⟨0, 1, 1.2, 1, 1.2, 0⟩]

/-! ## C10: the simplified MACD signal line -/

/-- C10: `calculateMACD` always returns `signal = 0.9 · macd` and
`histogram = macd − signal = 0.1 · macd`, so the momentum detector's
compound tests `histogram > 0 ∧ macd > signal` and
`histogram < 0 ∧ macd < signal` are each equivalent to the sign of the
MACD line alone. -/
theorem macd_signal_proportional (candles : List CandleData)
    (fastPeriod slowPeriod signalPeriod : ℕ) :
    (calculateMACD candles fastPeriod slowPeriod signalPeriod).signal =
      0.9 * (calculateMACD candles fastPeriod slowPeriod signalPeriod).macd ∧
    (calculateMACD candles fastPeriod slowPeriod signalPeriod).histogram =
      (calculateMACD candles fastPeriod slowPeriod signalPeriod).macd -
        (calculateMACD candles fastPeriod slowPeriod signalPeriod).signal ∧
    (calculateMACD candles fastPeriod slowPeriod signalPeriod).histogram =
      0.1 * (calculateMACD candles fastPeriod slowPeriod signalPeriod).macd ∧
    ((calculateMACD candles fastPeriod slowPeriod signalPeriod).histogram > 0 ∧
        (calculateMACD candles fastPeriod slowPeriod signalPeriod).macd >
          (calculateMACD candles fastPeriod slowPeriod signalPeriod).signal ↔
      (calculateMACD candles fastPeriod slowPeriod signalPeriod).macd > 0) ∧
    ((calculateMACD candles fastPeriod slowPeriod signalPeriod).histogram < 0 ∧
        (calculateMACD candles fastPeriod slowPeriod signalPeriod).macd <
          (calculateMACD candles fastPeriod slowPeriod signalPeriod).signal ↔
      (calculateMACD candles fastPeriod slowPeriod signalPeriod).macd < 0) := by
  unfold calculateMACD
  split_ifs with h
  · norm_num
  · dsimp only
    refine ⟨by ring, by ring, by ring, ?_, ?_⟩
    · constructor
      · rintro ⟨h1, _⟩
        nlinarith
      · intro h1
        constructor <;> nlinarith
    · constructor
      · rintro ⟨h1, _⟩
        nlinarith
      · intro h1
        constructor <;> nlinarith

/-! ## C4: the risk gate daily-loss boundary -/

/-- C4: `canTrade` denies with the daily-loss reason exactly when the
cumulative daily profit is `≤ -maxDailyLoss`; with all other gates passing
it denies at `dailyProfit = -maxDailyLoss` exactly and allows at
`-maxDailyLoss + 0.01`. -/
theorem canTrade_daily_loss_boundary :
    (∀ (cfg : RiskConfig) (stats : DailyStats) (hour : ℤ) (currentEquity : ℚ),
      canTrade cfg stats hour currentEquity = ⟨false, some .dailyLoss⟩ ↔
        stats.profit ≤ -cfg.maxDailyLoss) ∧
    canTrade DEFAULT_RISK_CONFIG
        ⟨"", 0, 0, 0, -DEFAULT_RISK_CONFIG.maxDailyLoss, 10000, 10000, 0⟩ 12 10000 =
      ⟨false, some .dailyLoss⟩ ∧
    canTrade DEFAULT_RISK_CONFIG
        ⟨"", 0, 0, 0, -DEFAULT_RISK_CONFIG.maxDailyLoss + 0.01, 10000, 10000, 0⟩ 12 10000 =
      ⟨true, none⟩ := by
  refine ⟨fun cfg stats hour currentEquity => ?_, ?_, ?_⟩
  · by_cases hp : stats.profit ≤ -cfg.maxDailyLoss
    · simp [canTrade, hp]
    · simp only [canTrade, if_neg hp]
      constructor
      · intro h
        exfalso
        split_ifs at h <;> simp_all
      · intro h
        exact absurd h hp
  · norm_num [canTrade, DEFAULT_RISK_CONFIG]
  · norm_num [canTrade, DEFAULT_RISK_CONFIG, isNewsTime]

/-! ## C8: indicator neutral defaults on insufficient data -/

/-- C8: on a non-empty candle series shorter than the guard lookback,
`calculateRSI` returns 50, `calculateBollingerBands` a flat band at the
last close with bandwidth 0, `calculateATR` 0 and `calculateStochastic`
`{k := 50, d := 50}` (all four are total functions). -/
theorem indicator_neutral_defaults (sqrt : ℚ → ℚ) (candles : List CandleData)
    (rsiPeriod bbPeriod atrPeriod kPeriod dPeriod : ℕ) (bbStdDev : ℚ)
    (hne : candles ≠ []) :
    (candles.length < rsiPeriod + 1 → calculateRSI candles rsiPeriod = 50) ∧
    (candles.length < bbPeriod →
      calculateBollingerBands sqrt candles bbPeriod bbStdDev =
        ⟨lastCloseOrZero candles, lastCloseOrZero candles, lastCloseOrZero candles, 0⟩) ∧
    (candles.length < atrPeriod + 1 → calculateATR candles atrPeriod = 0) ∧
    (candles.length < kPeriod → calculateStochastic candles kPeriod dPeriod = ⟨50, 50⟩) := by
  refine ⟨fun h => ?_, fun h => ?_, fun h => ?_, fun h => ?_⟩
  · simp [calculateRSI, h]
  · simp [calculateBollingerBands, h]
  · simp [calculateATR, h]
  · simp [calculateStochastic, h]

/-- C8 witness: the guards and neutral defaults at a concrete one-candle
series with the default periods. -/
theorem indicator_neutral_defaults_witness :
    [oneCandle] ≠ ([] : List CandleData) ∧
    calculateRSI [oneCandle] 14 = 50 ∧
    calculateBollingerBands zeroSqrt [oneCandle] 20 2 = ⟨1, 1, 1, 0⟩ ∧
    calculateATR [oneCandle] 14 = 0 ∧
    calculateStochastic [oneCandle] 14 3 = ⟨50, 50⟩ := by
  obtain ⟨h1, h2, h3, h4⟩ :=
    indicator_neutral_defaults zeroSqrt [oneCandle] 14 20 14 14 3 2 (by decide)
  exact ⟨by decide, h1 (by decide), h2 (by decide), h3 (by decide), h4 (by decide)⟩

/-! ## C5: detector minimum-history guards -/

/-- C5 counterexample: a 20-candle series (shorter than 30 candles) on
which the breakout detector returns BUY with confidence 65, not NONE with
confidence 0. -/
theorem detector_min_history_counterexample :
    breakoutCandles.length = 20 ∧
    (detectBreakoutSignal breakoutCandles).signal = .BUY ∧
    (detectBreakoutSignal breakoutCandles).confidence = 65 := by
  refine ⟨by decide, ?_, ?_⟩ <;>
    norm_num [detectBreakoutSignal, breakoutCandles, flatCandle, listMax, listMin,
      calculateATR, trueRanges, sliceLast, List.replicate, List.getD, List.get?]

/-- C5 amended: the four detectors guard at 50 (trend), 20 (mean
reversion), 20 (breakout) and 30 (momentum) candles — so between 20 and 50,
not 30 and 50 — and below its own guard each returns NONE with
confidence 0; in particular every series shorter than 20 candles gets NONE
from all four. -/
theorem detector_min_history_amended (sqrt : ℚ → ℚ) (candles : List CandleData) :
    (candles.length < 50 →
      detectTrendSignal candles = ⟨.NONE, 0, .trend, "Insufficient data"⟩) ∧
    (candles.length < 20 →
      detectMeanReversionSignal sqrt candles = ⟨.NONE, 0, .mean_reversion, "Insufficient data"⟩) ∧
    (candles.length < 20 →
      detectBreakoutSignal candles = ⟨.NONE, 0, .breakout, "Insufficient data"⟩) ∧
    (candles.length < 30 →
      detectMomentumSignal candles = ⟨.NONE, 0, .momentum, "Insufficient data"⟩) := by
  refine ⟨fun h => ?_, fun h => ?_, fun h => ?_, fun h => ?_⟩
  · simp [detectTrendSignal, h]
  · simp [detectMeanReversionSignal, h]
  · simp [detectBreakoutSignal, h]
  · simp [detectMomentumSignal, h]

/-- C5 witness: all four detectors return the insufficient-data result on a
concrete one-candle series. -/
theorem detector_min_history_amended_witness :
    detectTrendSignal [oneCandle] = ⟨.NONE, 0, .trend, "Insufficient data"⟩ ∧
    detectMeanReversionSignal zeroSqrt [oneCandle] = ⟨.NONE, 0, .mean_reversion, "Insufficient data"⟩ ∧
    detectBreakoutSignal [oneCandle] = ⟨.NONE, 0, .breakout, "Insufficient data"⟩ ∧
    detectMomentumSignal [oneCandle] = ⟨.NONE, 0, .momentum, "Insufficient data"⟩ := by
  obtain ⟨h1, h2, h3, h4⟩ := detector_min_history_amended zeroSqrt [oneCandle]
  exact ⟨h1 (by decide), h2 (by decide), h3 (by decide), h4 (by decide)⟩

/-! ## C2: plurality voting in the signal aggregator -/

/-- C2: after the per-strategy filtering, the side with strictly more
surviving votes wins with the mean of its confidences and the
pipe-separated concatenation of its reasons; a tie (including zero
survivors) yields NONE with confidence 0. -/
theorem multi_strategy_plurality (sqrt : ℚ → ℚ) (candles : List CandleData)
    (strategies : List StrategyConfig) :
    let signals := collectSignals sqrt candles strategies
    let buySignals := signals.filter fun s => decide (s.signal = .BUY)
    let sellSignals := signals.filter fun s => decide (s.signal = .SELL)
    let result := detectMultiStrategySignal sqrt candles strategies
    (buySignals.length > sellSignals.length →
      result = ⟨.BUY, (buySignals.map (·.confidence)).sum / (buySignals.length : ℚ),
        ((buySignals.head?).map (·.strategy)).getD .trend,
        String.intercalate " | " (buySignals.map (·.reason))⟩) ∧
    (sellSignals.length > buySignals.length →
      result = ⟨.SELL, (sellSignals.map (·.confidence)).sum / (sellSignals.length : ℚ),
        ((sellSignals.head?).map (·.strategy)).getD .trend,
        String.intercalate " | " (sellSignals.map (·.reason))⟩) ∧
    (buySignals.length = sellSignals.length →
      result.signal = .NONE ∧ result.confidence = 0) := by
  rcases hS : collectSignals sqrt candles strategies with _ | ⟨s0, rest⟩
  · refine ⟨fun h => absurd h (by simp), fun h => absurd h (by simp), fun _ => ?_⟩
    simp [detectMultiStrategySignal, aggregateSignals, hS]
  · have hne : (collectSignals sqrt candles strategies).isEmpty = false := by
      rw [hS]; rfl
    refine ⟨fun h => ?_, fun h => ?_, fun h => ?_⟩
    · rw [← hS] at h ⊢
      simp only [detectMultiStrategySignal, aggregateSignals, hne, Bool.false_eq_true,
        if_false, if_pos h]
    · rw [← hS] at h ⊢
      have h2 : ¬ ((collectSignals sqrt candles strategies).filter
            (fun s => decide (s.signal = .BUY))).length >
          ((collectSignals sqrt candles strategies).filter
            (fun s => decide (s.signal = .SELL))).length := by omega
      simp only [detectMultiStrategySignal, aggregateSignals, hne, Bool.false_eq_true,
        if_false, if_neg h2, if_pos h]
    · rw [← hS] at h
      have h1 : ¬ ((collectSignals sqrt candles strategies).filter
            (fun s => decide (s.signal = .BUY))).length >
          ((collectSignals sqrt candles strategies).filter
            (fun s => decide (s.signal = .SELL))).length := by omega
      have h2 : ¬ ((collectSignals sqrt candles strategies).filter
            (fun s => decide (s.signal = .SELL))).length >
          ((collectSignals sqrt candles strategies).filter
            (fun s => decide (s.signal = .BUY))).length := by omega
      simp only [detectMultiStrategySignal, aggregateSignals, hne, Bool.false_eq_true,
        if_false, if_neg h1, if_neg h2]
      simp

/-- C2 witness: a single enabled breakout strategy surviving with BUY 65
on the concrete breakout series; the aggregate is that vote. -/
theorem multi_strategy_plurality_witness :
    ((collectSignals zeroSqrt breakoutCandles [⟨.breakout, true, 25, 60⟩]).filter
        (fun s => decide (s.signal = .BUY))).length >
      ((collectSignals zeroSqrt breakoutCandles [⟨.breakout, true, 25, 60⟩]).filter
        (fun s => decide (s.signal = .SELL))).length ∧
    (detectMultiStrategySignal zeroSqrt breakoutCandles [⟨.breakout, true, 25, 60⟩]).signal =
      .BUY := by
  have hbuy : (detectBreakoutSignal breakoutCandles).signal = .BUY ∧
      (detectBreakoutSignal breakoutCandles).confidence = 65 := by
    constructor <;>
      norm_num [detectBreakoutSignal, breakoutCandles, flatCandle, listMax, listMin,
        calculateATR, trueRanges, sliceLast, List.replicate, List.getD, List.get?]
  have hcol : collectSignals zeroSqrt breakoutCandles [⟨.breakout, true, 25, 60⟩] =
      [detectBreakoutSignal breakoutCandles] := by
    simp only [collectSignals, runStrategy, if_pos]
    rw [if_pos]
    constructor
    · rw [hbuy.1]
      simp
    · rw [hbuy.2]
      norm_num
  have hlen : ((collectSignals zeroSqrt breakoutCandles [⟨.breakout, true, 25, 60⟩]).filter
        (fun s => decide (s.signal = .BUY))).length >
      ((collectSignals zeroSqrt breakoutCandles [⟨.breakout, true, 25, 60⟩]).filter
        (fun s => decide (s.signal = .SELL))).length := by
    rw [hcol]
    simp [List.filter, hbuy.1]
  have := (multi_strategy_plurality zeroSqrt breakoutCandles [⟨.breakout, true, 25, 60⟩]).1 hlen
  refine ⟨hlen, ?_⟩
  rw [this]

/-! ## C9: the per-strategy weight is a no-op -/

/-- Two strategy-configuration lists that agree except possibly on each
entry's `weight` field. -/
def sameExceptWeight : List StrategyConfig → List StrategyConfig → Bool
  | [], [] => true
  | a :: as, b :: bs =>
      decide (a.name = b.name) && decide (a.enabled = b.enabled) &&
        decide (a.minConfidence = b.minConfidence) && sameExceptWeight as bs
  | _, _ => false

/-- The collection loop never reads `weight`. -/
theorem collectSignals_weight_congr (s1 s2 : List StrategyConfig)
    (h : sameExceptWeight s1 s2 = true) (sqrt : ℚ → ℚ) (candles : List CandleData) :
    collectSignals sqrt candles s1 = collectSignals sqrt candles s2 := by
  induction s1 generalizing s2 with
  | nil =>
    cases s2 with
    | nil => rfl
    | cons b bs => simp [sameExceptWeight] at h
  | cons a as ih =>
    cases s2 with
    | nil => simp [sameExceptWeight] at h
    | cons b bs =>
      simp only [sameExceptWeight, Bool.and_eq_true, decide_eq_true_eq] at h
      obtain ⟨⟨⟨hn, he⟩, hm⟩, hrest⟩ := h
      show collectSignals sqrt candles (a :: as) = collectSignals sqrt candles (b :: bs)
      simp only [collectSignals, hn, he, hm, ih bs hrest]

/-- C9: `detectMultiStrategySignal` returns identical results on
configuration lists that differ only in strategy weights. -/
theorem strategy_weight_noop (sqrt : ℚ → ℚ) (candles : List CandleData)
    (s1 s2 : List StrategyConfig) (h : sameExceptWeight s1 s2 = true) :
    detectMultiStrategySignal sqrt candles s1 = detectMultiStrategySignal sqrt candles s2 := by
  unfold detectMultiStrategySignal
  rw [collectSignals_weight_congr s1 s2 h sqrt candles]

/-- C9 witness: changing a breakout strategy's weight from 25 to 99 leaves
the aggregate on the concrete breakout series unchanged. -/
theorem strategy_weight_noop_witness :
    sameExceptWeight [⟨.breakout, true, 25, 60⟩] [⟨.breakout, true, 99, 60⟩] = true ∧
    detectMultiStrategySignal zeroSqrt breakoutCandles [⟨.breakout, true, 25, 60⟩] =
      detectMultiStrategySignal zeroSqrt breakoutCandles [⟨.breakout, true, 99, 60⟩] := by
  have h : sameExceptWeight [(⟨.breakout, true, 25, 60⟩ : StrategyConfig)]
      [⟨.breakout, true, 99, 60⟩] = true := by
    norm_num [sameExceptWeight]
  exact ⟨h, strategy_weight_noop zeroSqrt breakoutCandles _ _ h⟩

/-! ## C7: the Continuation Analyzer decision rule -/

/-- The analyzer accumulation loop equals direct summation of the bullish,
bearish and total weights. -/
theorem continuation_scores_eq (sigs : List IndicatorSignal) (b br t : ℚ) :
    sigs.foldl
      (fun (acc : ℚ × ℚ × ℚ) sig =>
        (if sig.direction = .bullish then acc.1 + sig.weight else acc.1,
         if sig.direction = .bearish then acc.2.1 + sig.weight else acc.2.1,
         acc.2.2 + sig.weight)) (b, br, t) =
    (b + (((sigs.filter fun s => decide (s.direction = .bullish)).map (·.weight)).sum),
     br + (((sigs.filter fun s => decide (s.direction = .bearish)).map (·.weight)).sum),
     t + ((sigs.map (·.weight)).sum)) := by
  induction sigs generalizing b br t with
  | nil => simp
  | cons s rest ih =>
    simp only [List.foldl_cons, ih, List.filter_cons, List.map_cons, List.sum_cons]
    by_cases hb : s.direction = .bullish <;> by_cases hbr : s.direction = .bearish <;>
      simp [hb, hbr, add_assoc]

/-- The analyzer's decision stage, characterized against the directly
summed percentages. -/
theorem analyze_decision_cases (sqrt : ℚ → ℚ) (candles : List CandleData)
    (positionType : PositionSide) (peakPrice : ℚ) :
    let p := continuationPercents sqrt candles positionType
    let a := analyzeMarketForContinuation sqrt candles positionType peakPrice
    let favoring := match positionType with | .BUY => p.1 | .SELL => p.2
    let opposing := match positionType with | .BUY => p.2 | .SELL => p.1
    (favoring > opposing + 20 → a = ⟨true, ((round favoring : ℤ) : ℚ)⟩) ∧
    (opposing > favoring + 20 → a = ⟨false, ((round opposing : ℤ) : ℚ)⟩) ∧
    (¬ favoring > opposing + 20 → ¬ opposing > favoring + 20 → a = ⟨true, 50⟩) := by
  have hfold : analyzeMarketForContinuation sqrt candles positionType peakPrice =
      (let p := continuationPercents sqrt candles positionType
       match positionType with
       | .BUY =>
         if p.1 > p.2 + 20 then ⟨true, ((round p.1 : ℤ) : ℚ)⟩
         else if p.2 > p.1 + 20 then ⟨false, ((round p.2 : ℤ) : ℚ)⟩
         else ⟨true, 50⟩
       | .SELL =>
         if p.2 > p.1 + 20 then ⟨true, ((round p.2 : ℤ) : ℚ)⟩
         else if p.1 > p.2 + 20 then ⟨false, ((round p.1 : ℤ) : ℚ)⟩
         else ⟨true, 50⟩) := by
    simp only [analyzeMarketForContinuation, continuationPercents,
      continuation_scores_eq, zero_add]
  cases positionType with
  | BUY =>
    rw [hfold]
    dsimp only
    refine ⟨fun h => ?_, fun h => ?_, fun h1 h2 => ?_⟩
    · rw [if_pos h]
    · rw [if_neg (by linarith), if_pos h]
    · rw [if_neg h1, if_neg h2]
  | SELL =>
    rw [hfold]
    dsimp only
    refine ⟨fun h => ?_, fun h => ?_, fun h1 h2 => ?_⟩
    · rw [if_pos h]
    · rw [if_neg (by linarith), if_pos h]
    · rw [if_neg h1, if_neg h2]

/-- C7: the analyzer declares an outcome with the favoring side's rounded
percentage exactly when that side leads the opposing side by more than 20
percentage points (bullish favors a BUY's continuation, bearish a SELL's);
otherwise it returns willContinue = true at confidence 50. -/
theorem continuation_decision_rule (sqrt : ℚ → ℚ) (candles : List CandleData)
    (positionType : PositionSide) (peakPrice : ℚ) :
    let p := continuationPercents sqrt candles positionType
    let a := analyzeMarketForContinuation sqrt candles positionType peakPrice
    let favoring := match positionType with | .BUY => p.1 | .SELL => p.2
    let opposing := match positionType with | .BUY => p.2 | .SELL => p.1
    (favoring > opposing + 20 → a = ⟨true, ((round favoring : ℤ) : ℚ)⟩) ∧
    (opposing > favoring + 20 → a = ⟨false, ((round opposing : ℤ) : ℚ)⟩) ∧
    (¬ favoring > opposing + 20 → ¬ opposing > favoring + 20 → a = ⟨true, 50⟩) :=
  analyze_decision_cases sqrt candles positionType peakPrice

/-- C7 witness: on a concrete one-candle BUY window the bearish side leads
by more than 20 points and the analyzer answers willContinue = false at
the rounded bearish percentage (50). -/
theorem continuation_decision_rule_witness :
    (continuationPercents zeroSqrt [oneCandle] .BUY).2 >
      (continuationPercents zeroSqrt [oneCandle] .BUY).1 + 20 ∧
    analyzeMarketForContinuation zeroSqrt [oneCandle] .BUY 0 =
      ⟨false, ((round (continuationPercents zeroSqrt [oneCandle] .BUY).2 : ℤ) : ℚ)⟩ := by
  have hsig : continuationSignals zeroSqrt [oneCandle] .BUY =
      [⟨"MACD", .neutral, 10⟩, ⟨"Trend", .neutral, 10⟩, ⟨"BB", .bearish, 20⟩] := by
    norm_num [continuationSignals, oneCandle, calculateRSI, calculateMACD,
      calculateStochastic, calculateEMA, calculateBollingerBands, lastCloseOrZero]
  have hp : continuationPercents zeroSqrt [oneCandle] .BUY = (0, 50) := by
    have d1 : Direction.neutral ≠ Direction.bullish := by decide
    have d2 : Direction.bearish ≠ Direction.bullish := by decide
    have d3 : Direction.neutral ≠ Direction.bearish := by decide
    simp only [continuationPercents, hsig, List.filter_cons, List.filter_nil,
      decide_eq_true_eq]
    norm_num [d1, d2, d3]
  have hgt : (continuationPercents zeroSqrt [oneCandle] .BUY).2 >
      (continuationPercents zeroSqrt [oneCandle] .BUY).1 + 20 := by
    rw [hp]
    norm_num
  exact ⟨hgt, (continuation_decision_rule zeroSqrt [oneCandle] .BUY 0).2.1 hgt⟩

/-! ## C6: martingale position sizing -/

/-- C6 amended: with martingale on and the last trade a loss, the risked
dollar amount is multiplied by `martingaleMultiplier ^ martingaleStep` only
while the step is strictly below `maxMartingaleSteps`; once the step has
reached the cap no multiplier is applied at all, and any winning trade
resets the step to zero. -/
theorem martingale_sizing_amended (cfg : RiskConfig) (cachedATR : Option ℚ)
    (accountBalance : ℚ) (symbol : String) (stopLossPips : ℚ) (currentPrice : Option ℚ)
    (martingaleStep : ℕ) :
    (cfg.useMartingale = true → martingaleStep < cfg.maxMartingaleSteps →
      calculateLotSize cfg (some .loss) martingaleStep cachedATR accountBalance symbol
          stopLossPips currentPrice =
        lotFromRisk cfg (accountBalance * (cfg.riskPercent / 100) *
            cfg.martingaleMultiplier ^ martingaleStep) cachedATR accountBalance symbol
          stopLossPips currentPrice) ∧
    (¬ martingaleStep < cfg.maxMartingaleSteps →
      calculateLotSize cfg (some .loss) martingaleStep cachedATR accountBalance symbol
          stopLossPips currentPrice =
        lotFromRisk cfg (accountBalance * (cfg.riskPercent / 100)) cachedATR
          accountBalance symbol stopLossPips currentPrice) ∧
    (∀ (st : RiskState) (profit : ℚ), profit > 0 →
      (recordTradeResult cfg st profit).martingaleStep = 0) := by
  refine ⟨fun hm hs => ?_, fun hs => ?_, fun st profit hp => ?_⟩
  · simp [calculateLotSize, hm, hs]
  · simp [calculateLotSize, hs]
  · simp [recordTradeResult, hp]

/-- `DEFAULT_RISK_CONFIG` with martingale switched on. -/
def mtgCfg : RiskConfig := { DEFAULT_RISK_CONFIG with useMartingale := true }

/-- C6 counterexample: with multiplier 2 and cap 3, at consecutive-loss
step 3 (= the cap) the code sizes with the unmultiplied risk amount (lot
0.5 on a 10000 balance), while the claim's step-capped multiplier 2 ^ 3
would give lot 4. -/
theorem martingale_cap_counterexample :
    mtgCfg.useMartingale = true ∧
    mtgCfg.maxMartingaleSteps = 3 ∧
    calculateLotSize mtgCfg (some .loss) 3 none 10000 "EURUSD" 20 none = 0.5 ∧
    lotFromRisk mtgCfg (10000 * (mtgCfg.riskPercent / 100) *
        mtgCfg.martingaleMultiplier ^ 3) none 10000 "EURUSD" 20 none = 4 ∧
    (0.5 : ℚ) ≠ 4 := by
  have hx : "EURUSD" ≠ "XAUUSD" := by decide
  have hj : strIncludes "EURUSD" "JPY" = false := by decide
  refine ⟨rfl, rfl, ?_, ?_, by norm_num⟩
  · norm_num [calculateLotSize, lotFromRisk, mtgCfg, DEFAULT_RISK_CONFIG,
      getPipDollarValue, getMaxLotSize, hx, hj, round_eq, min_def, max_def]
  · norm_num [lotFromRisk, mtgCfg, DEFAULT_RISK_CONFIG, getPipDollarValue,
      getMaxLotSize, hx, hj, round_eq, min_def, max_def]

/-- C6 witness: one loss below the cap (step 2) multiplies the risk amount
by 2 ^ 2, at the cap (step 3) it does not, and a winning trade resets the
step. -/
theorem martingale_sizing_amended_witness :
    mtgCfg.useMartingale = true ∧
    calculateLotSize mtgCfg (some .loss) 2 none 10000 "EURUSD" 20 none =
      lotFromRisk mtgCfg (10000 * (mtgCfg.riskPercent / 100) *
        mtgCfg.martingaleMultiplier ^ 2) none 10000 "EURUSD" 20 none ∧
    calculateLotSize mtgCfg (some .loss) 3 none 10000 "EURUSD" 20 none =
      lotFromRisk mtgCfg (10000 * (mtgCfg.riskPercent / 100)) none 10000 "EURUSD" 20 none ∧
    (recordTradeResult mtgCfg ⟨3, some .loss, ⟨"", 0, 0, 0, 0, 10000, 10000, 0⟩⟩
        25).martingaleStep = 0 := by
  obtain ⟨h1, h2, h3⟩ :=
    martingale_sizing_amended mtgCfg none 10000 "EURUSD" 20 none 2
  obtain ⟨_, h2b, _⟩ :=
    martingale_sizing_amended mtgCfg none 10000 "EURUSD" 20 none 3
  exact ⟨rfl, h1 rfl (by norm_num [mtgCfg, DEFAULT_RISK_CONFIG]),
    h2b (by norm_num [mtgCfg, DEFAULT_RISK_CONFIG]),
    h3 ⟨3, some .loss, ⟨"", 0, 0, 0, 0, 10000, 10000, 0⟩⟩ 25 (by norm_num)⟩

/-! ## C3: the trailing stop under 5-decimal rounding -/

/-- One trailing recomputation: if the tracked stop is an integer multiple
of 10⁻⁵, a BUY stop never decreases and a SELL stop never increases, and
the resulting stop is again such a multiple. -/
theorem trailingStep_mono (cfg : AutoTraderConfig) (pos : Position)
    (st : Option ℚ × ℚ) (k : ℤ) (halign : st.2 = (k : ℚ) / 100000) :
    (pos.type = .BUY → st.2 ≤ (trailingStep cfg pos st).2) ∧
    (pos.type = .SELL → (trailingStep cfg pos st).2 ≤ st.2) ∧
    ∃ k2 : ℤ, (trailingStep cfg pos st).2 = (k2 : ℚ) / 100000 := by
  unfold trailingStep
  by_cases hc : cfg.trailingStop = true ∧ calculateProfit pos pos.currentPrice > 0
  · rw [if_pos hc]
    rcases hb : st.1 with _ | currentBest
    · exact ⟨fun _ => le_refl _, fun _ => le_refl _, k, halign⟩
    · dsimp only
      cases hty : pos.type with
      | BUY =>
        dsimp only
        by_cases himp : pos.currentPrice > currentBest
        · rw [if_pos (by simpa using himp)]
          by_cases hupd :
              pos.currentPrice - cfg.trailingStopPips * pipValueOf pos.symbol > st.2
          · rw [if_pos (by simpa using hupd)]
            refine ⟨fun _ => ?_, fun h => by simp [hty] at h,
              round ((pos.currentPrice - cfg.trailingStopPips * pipValueOf pos.symbol) *
                100000), rfl⟩
            have hk : (k : ℚ) <
                (pos.currentPrice - cfg.trailingStopPips * pipValueOf pos.symbol) *
                  100000 := by
              have h5 : (0 : ℚ) < 100000 := by norm_num
              have := (div_lt_iff₀ h5).mp (halign ▸ hupd)
              linarith
            have hround : k ≤
                round ((pos.currentPrice - cfg.trailingStopPips * pipValueOf pos.symbol) *
                  100000) := by
              rw [round_eq]
              exact Int.le_floor.mpr (by linarith)
            rw [halign]
            exact (div_le_div_iff_of_pos_right (by norm_num : (0 : ℚ) < 100000)).mpr
              (by exact_mod_cast hround)
          · rw [if_neg (by simpa using hupd)]
            exact ⟨fun _ => le_refl _, fun _ => le_refl _, k, halign⟩
        · rw [if_neg (by simpa using himp)]
          exact ⟨fun _ => le_refl _, fun _ => le_refl _, k, halign⟩
      | SELL =>
        dsimp only
        by_cases himp : pos.currentPrice < currentBest
        · rw [if_pos (by simpa using himp)]
          by_cases hupd :
              pos.currentPrice + cfg.trailingStopPips * pipValueOf pos.symbol < st.2
          · rw [if_pos (by simpa using hupd)]
            refine ⟨fun h => by simp [hty] at h, fun _ => ?_,
              round ((pos.currentPrice + cfg.trailingStopPips * pipValueOf pos.symbol) *
                100000), rfl⟩
            have hk : (pos.currentPrice + cfg.trailingStopPips * pipValueOf pos.symbol) *
                100000 < (k : ℚ) := by
              have h5 : (0 : ℚ) < 100000 := by norm_num
              have := (lt_div_iff₀ h5).mp (halign ▸ hupd)
              linarith
            have hround :
                round ((pos.currentPrice + cfg.trailingStopPips * pipValueOf pos.symbol) *
                  100000) ≤ k := by
              rw [round_eq]
              have hlt : ⌊(pos.currentPrice + cfg.trailingStopPips * pipValueOf pos.symbol) *
                  100000 + 1 / 2⌋ < k + 1 :=
                Int.floor_lt.mpr (by push_cast; linarith)
              omega
            rw [halign]
            exact (div_le_div_iff_of_pos_right (by norm_num : (0 : ℚ) < 100000)).mpr
              (by exact_mod_cast hround)
          · rw [if_neg (by simpa using hupd)]
            exact ⟨fun _ => le_refl _, fun _ => le_refl _, k, halign⟩
        · rw [if_neg (by simpa using himp)]
          exact ⟨fun _ => le_refl _, fun _ => le_refl _, k, halign⟩
  · rw [if_neg hc]
    exact ⟨fun _ => le_refl _, fun _ => le_refl _, k, halign⟩

/-- C3 amended: the trailing logic adopts a candidate only when the
unrounded candidate is strictly more favorable than the current stop, but
stores it rounded to the nearest 10⁻⁵; when the tracked stop is an integer
multiple of 10⁻⁵ (as holds for every stop the autotrader itself writes),
no sequence of trailing recomputations ever makes a BUY stop smaller or a
SELL stop larger, and every stop it writes is again such a multiple. An
unaligned stop (e.g. after a breakeven move to an unrounded entry price)
can be lowered by less than 5·10⁻⁶ by the rounding. -/
theorem trailing_stop_never_loosens_amended (cfg : AutoTraderConfig) (pos : Position)
    (prices : List ℚ) (st : Option ℚ × ℚ) (k : ℤ)
    (halign : st.2 = (k : ℚ) / 100000) :
    (pos.type = .BUY → st.2 ≤ (trailingRun cfg pos prices st).2) ∧
    (pos.type = .SELL → (trailingRun cfg pos prices st).2 ≤ st.2) ∧
    ∃ k2 : ℤ, (trailingRun cfg pos prices st).2 = (k2 : ℚ) / 100000 := by
  induction prices generalizing st k with
  | nil => exact ⟨fun _ => le_refl _, fun _ => le_refl _, k, halign⟩
  | cons p ps ih =>
    have hrun : trailingRun cfg pos (p :: ps) st =
        trailingRun cfg pos ps (trailingStep cfg { pos with currentPrice := p } st) := by
      simp [trailingRun]
    obtain ⟨hbuy, hsell, k2, halign2⟩ :=
      trailingStep_mono cfg { pos with currentPrice := p } st k halign
    obtain ⟨ihbuy, ihsell, k3, halign3⟩ :=
      ih (trailingStep cfg { pos with currentPrice := p } st) k2 halign2
    refine ⟨fun hty => ?_, fun hty => ?_, ?_⟩
    · rw [hrun]
      exact le_trans (hbuy hty) (ihbuy hty)
    · rw [hrun]
      exact le_trans (ihsell hty) (hsell hty)
    · rw [hrun]
      exact ⟨k3, halign3⟩

/-- A BUY position used by the trailing counterexample: entry 1.0, tick
price 1.101502. -/
def trailPos : Position :=
  { id := "t", symbol := "EURUSD", type := .BUY, volume := 1, openPrice := 1,
    currentPrice := 1.101502, profit := 0, openTime := "", stopLoss := none,
    takeProfit := none }

/-- C3 counterexample: with the default 15-pip trail, a tracked BUY stop of
1.100001 and best-seen price 1.1015, the tick at 1.101502 computes the
candidate 1.100002 > 1.100001, adopts it, and stores round-to-5-decimals
1.1 — strictly lower (less favorable) than the stop it replaces. -/
theorem trailing_stop_rounding_counterexample :
    DEFAULT_CONFIG.trailingStop = true ∧
    trailingStep DEFAULT_CONFIG trailPos (some 1.1015, 1.100001) =
      (some 1.101502, 1.1) ∧
    (1.1 : ℚ) < 1.100001 := by
  have hx : "EURUSD" ≠ "XAUUSD" := by decide
  have hj : strIncludes "EURUSD" "JPY" = false := by decide
  refine ⟨rfl, ?_, by norm_num⟩
  norm_num [trailingStep, trailPos, DEFAULT_CONFIG, calculateProfit, pipValueOf,
    pipDollarValueOf, hx, hj, round_eq]

/-- C3 witness: a concrete aligned run (stop 1.1 = 110000·10⁻⁵, one tick at
1.101502) never lowers the BUY stop and stays 10⁻⁵-aligned. -/
theorem trailing_stop_never_loosens_amended_witness :
    ((1.1 : ℚ) = ((110000 : ℤ) : ℚ) / 100000) ∧
    (trailPos.type = .BUY →
      (1.1 : ℚ) ≤ (trailingRun DEFAULT_CONFIG trailPos [1.101502] (some 1.1015, 1.1)).2) ∧
    (trailPos.type = .SELL →
      (trailingRun DEFAULT_CONFIG trailPos [1.101502] (some 1.1015, 1.1)).2 ≤ 1.1) ∧
    ∃ k2 : ℤ,
      (trailingRun DEFAULT_CONFIG trailPos [1.101502] (some 1.1015, 1.1)).2 =
        (k2 : ℚ) / 100000 := by
  have h := trailing_stop_never_loosens_amended DEFAULT_CONFIG trailPos [1.101502]
    (some 1.1015, 1.1) 110000 (by norm_num)
  exact ⟨by norm_num, h.1, h.2.1, h.2.2⟩

/-! ## C1: smart loss recovery on a stop-loss hit -/

/-- C1 amended: on a tick whose price has crossed the tracked stop-loss,
the position is kept open with its stop moved to the entry price and one
recovery (SIGNAL) log entry exactly when smart-loss-recovery is on, the
unrealized loss is within `smartLossMaxLossPercent` of the stop-implied
loss, the pair is present in the universe, the symbol's candle series
exists with more than 30 candles, and the Continuation Analyzer answers
willContinue = true at confidence ≥ `smartLossRecoveryConfidence`; in every
other case (including a missing or too-short candle series) the position
closes: the win streak resets to zero, exactly one SL_HIT entry is logged,
the trade result is recorded once and the tracker is deleted. -/
theorem smart_loss_recovery_amended (sqrt : ℚ → ℚ) (cfg : AutoTraderConfig)
    (pos : Position) (tracker : PositionTracker) (wins : ℕ) (pairPresent : Bool)
    (cs : List CandleData) (hhit : slHit pos tracker.stopLoss = true) :
    ((cfg.smartLossRecovery = true ∧
        slLossPercent cfg pos ≤ cfg.smartLossMaxLossPercent ∧ pairPresent = true ∧
        30 < cs.length ∧
        (analyzeMarketForContinuation sqrt cs pos.type tracker.stopLoss).willContinue =
          true ∧
        (analyzeMarketForContinuation sqrt cs pos.type tracker.stopLoss).confidence ≥
          cfg.smartLossRecoveryConfidence) →
      evalStopLossHit sqrt cfg pos tracker wins pairPresent (some cs) =
        { closed := false
          tracker := some { tracker with stopLoss := pos.openPrice }
          consecutiveWins := wins
          logs := [{ action := .SIGNAL, symbol := pos.symbol, type := pos.type,
                     price := pos.currentPrice,
                     profit := some (calculateProfit pos pos.currentPrice),
                     reason := "üîÑ LOSS RECOVERY: Analysis shows " ++
                       toFixed 0
                         (analyzeMarketForContinuation sqrt cs pos.type
                           tracker.stopLoss).confidence ++
                       "% confidence for recovery. Moving SL to breakeven!" }]
          recorded := [] }) ∧
    (¬ (cfg.smartLossRecovery = true ∧
        slLossPercent cfg pos ≤ cfg.smartLossMaxLossPercent ∧ pairPresent = true ∧
        30 < cs.length ∧
        (analyzeMarketForContinuation sqrt cs pos.type tracker.stopLoss).willContinue =
          true ∧
        (analyzeMarketForContinuation sqrt cs pos.type tracker.stopLoss).confidence ≥
          cfg.smartLossRecoveryConfidence) →
      evalStopLossHit sqrt cfg pos tracker wins pairPresent (some cs) =
        { closed := true
          tracker := none
          consecutiveWins := 0
          logs := [{ action := .SL_HIT, symbol := pos.symbol, type := pos.type,
                     price := pos.currentPrice,
                     profit := some (calculateProfit pos pos.currentPrice),
                     reason := "üõë Stop Loss hit! Loss: $" ++
                       toFixed 2 (calculateProfit pos pos.currentPrice) }]
          recorded := [calculateProfit pos pos.currentPrice] }) ∧
    evalStopLossHit sqrt cfg pos tracker wins pairPresent none =
      { closed := true
        tracker := none
        consecutiveWins := 0
        logs := [{ action := .SL_HIT, symbol := pos.symbol, type := pos.type,
                   price := pos.currentPrice,
                   profit := some (calculateProfit pos pos.currentPrice),
                   reason := "üõë Stop Loss hit! Loss: $" ++
                     toFixed 2 (calculateProfit pos pos.currentPrice) }]
        recorded := [calculateProfit pos pos.currentPrice] } := by
  refine ⟨fun hrec => ?_, fun hnot => ?_, ?_⟩
  · obtain ⟨h1, h2, h3, h4, h5, h6⟩ := hrec
    simp [evalStopLossHit, hhit, h1, h2, h3, h4, h5, h6]
    try rfl
  · by_cases h1 : cfg.smartLossRecovery = true
    · by_cases h2 : slLossPercent cfg pos ≤ cfg.smartLossMaxLossPercent
      · by_cases h3 : pairPresent = true
        · by_cases h4 : 30 < cs.length
          · have h56 : ¬ ((analyzeMarketForContinuation sqrt cs pos.type
                  tracker.stopLoss).willContinue = true ∧
                (analyzeMarketForContinuation sqrt cs pos.type
                  tracker.stopLoss).confidence ≥ cfg.smartLossRecoveryConfidence) := by
              rintro ⟨h5, h6⟩
              exact hnot ⟨h1, h2, h3, h4, h5, h6⟩
            simp [evalStopLossHit, hhit, h1, h2, h3, h4, h56]
            try rfl
          · simp [evalStopLossHit, hhit, h1, h2, h3, h4]
            try rfl
        · simp [evalStopLossHit, hhit, h3]
          try rfl
      · simp [evalStopLossHit, hhit, h2]
        try rfl
    · simp [evalStopLossHit, hhit, h1]
      try rfl
  · by_cases hA : cfg.smartLossRecovery = true ∧
        slLossPercent cfg pos ≤ cfg.smartLossMaxLossPercent ∧ pairPresent = true <;>
      · simp [evalStopLossHit, hhit, hA]
        try rfl

/-- `DEFAULT_CONFIG` with the recovery-confidence threshold lowered to 50. -/
def cexCfg : AutoTraderConfig := { DEFAULT_CONFIG with smartLossRecoveryConfidence := 50 }

/-- A BUY position 5 pips under water at its tracked stop. -/
def cexPos : Position :=
  { id := "p1", symbol := "EURUSD", type := .BUY, volume := 1, openPrice := 1.1,
    currentPrice := 1.0995, profit := 0, openTime := "", stopLoss := some 1.0995,
    takeProfit := some 1.103 }

/-- The tracker of `cexPos`: stop at 1.0995 (just crossed). -/
def cexTracker : PositionTracker :=
  { stopLoss := 1.0995, takeProfit := 1.103, initialStopLoss := 1.0995, peakProfit := 0,
    peakPrice := 1.1 }

/-- An 18-candle series on which the Continuation Analyzer (BUY) answers
willContinue = true at confidence 50: RSI 66.67 (bullish 15), MACD neutral
10, Stochastic %K 10.7 (bullish 15), flat EMAs (neutral 10), price at the
flat Bollinger band (bearish 20). -/
def cs18 : List CandleData :=
  [flatCandle 1.1, flatCandle 1.1, flatCandle 1.1, flatCandle 1.1, flatCandle 1.102,
   ⟨0, 1.101, 2, 1, 1.101, 0⟩,
   flatCandle 1.103, flatCandle 1.102, flatCandle 1.104, flatCandle 1.103,
   flatCandle 1.105, flatCandle 1.104, flatCandle 1.106, flatCandle 1.105,
   flatCandle 1.107, flatCandle 1.106, flatCandle 1.108, flatCandle 1.107]

/-- C1 counterexample: every condition the claim requires for recovery
holds (feature on, loss at 25% of the stop-implied loss, analyzer answering
willContinue = true at confidence 50 ≥ threshold 50), yet because the
candle series has only 18 ≤ 30 candles the code closes the position and
deletes the tracker instead of moving the stop to breakeven. -/
theorem smart_loss_recovery_counterexample :
    cexCfg.smartLossRecovery = true ∧
    slHit cexPos cexTracker.stopLoss = true ∧
    slLossPercent cexCfg cexPos ≤ cexCfg.smartLossMaxLossPercent ∧
    analyzeMarketForContinuation zeroSqrt cs18 cexPos.type cexTracker.stopLoss =
      ⟨true, 50⟩ ∧
    (analyzeMarketForContinuation zeroSqrt cs18 cexPos.type
        cexTracker.stopLoss).confidence ≥ cexCfg.smartLossRecoveryConfidence ∧
    (evalStopLossHit zeroSqrt cexCfg cexPos cexTracker 5 true (some cs18)).closed =
      true ∧
    (evalStopLossHit zeroSqrt cexCfg cexPos cexTracker 5 true (some cs18)).tracker =
      none := by
  have hx : "EURUSD" ≠ "XAUUSD" := by decide
  have hj : strIncludes "EURUSD" "JPY" = false := by decide
  have hhit : slHit cexPos cexTracker.stopLoss = true := by
    norm_num [slHit, cexPos, cexTracker]
  have hlp : slLossPercent cexCfg cexPos = 25 := by
    norm_num [slLossPercent, calculateProfit, cexCfg, cexPos, DEFAULT_CONFIG,
      pipValueOf, pipDollarValueOf, hx, hj]
  have hsig : continuationSignals zeroSqrt cs18 .BUY =
      [⟨"RSI", .bullish, 15⟩, ⟨"MACD", .neutral, 10⟩, ⟨"Stoch", .bullish, 15⟩,
       ⟨"Trend", .neutral, 10⟩, ⟨"BB", .bearish, 20⟩] := by
    norm_num [continuationSignals, cs18, flatCandle, calculateRSI, calculateMACD,
      calculateStochastic, calculateEMA, calculateBollingerBands, lastCloseOrZero,
      sliceLast, listMin, listMax, consecDiffs, min_def, max_def]
  have d1 : Direction.neutral ≠ Direction.bullish := by decide
  have d2 : Direction.bearish ≠ Direction.bullish := by decide
  have d3 : Direction.neutral ≠ Direction.bearish := by decide
  have d4 : Direction.bullish ≠ Direction.bearish := by decide
  have hp : continuationPercents zeroSqrt cs18 .BUY = (300 / 7, 200 / 7) := by
    simp only [continuationPercents, hsig, List.filter_cons, List.filter_nil,
      decide_eq_true_eq]
    norm_num [d1, d2, d3, d4]
  have hana : analyzeMarketForContinuation zeroSqrt cs18 .BUY cexTracker.stopLoss =
      ⟨true, 50⟩ := by
    refine (analyze_decision_cases zeroSqrt cs18 .BUY cexTracker.stopLoss).2.2 ?_ ?_ <;>
      · rw [hp]
        norm_num
  have hlen : ¬ (30 : ℕ) < cs18.length := by decide
  have hout : evalStopLossHit zeroSqrt cexCfg cexPos cexTracker 5 true (some cs18) =
      { closed := true
        tracker := none
        consecutiveWins := 0
        logs := [{ action := .SL_HIT, symbol := cexPos.symbol, type := cexPos.type,
                   price := cexPos.currentPrice,
                   profit := some (calculateProfit cexPos cexPos.currentPrice),
                   reason := "üõë Stop Loss hit! Loss: $" ++
                     toFixed 2 (calculateProfit cexPos cexPos.currentPrice) }]
        recorded := [calculateProfit cexPos cexPos.currentPrice] } := by
    simp only [evalStopLossHit, hhit, if_true]
    rw [if_pos ⟨rfl, by rw [hlp]; norm_num [cexCfg, DEFAULT_CONFIG], trivial⟩]
    simp [hlen]
  have hana2 : analyzeMarketForContinuation zeroSqrt cs18 cexPos.type
      cexTracker.stopLoss = ⟨true, 50⟩ := hana
  refine ⟨rfl, hhit, by rw [hlp]; norm_num [cexCfg, DEFAULT_CONFIG],
    hana2, by rw [hana2]; norm_num [cexCfg, DEFAULT_CONFIG], ?_, ?_⟩ <;> rw [hout]

/-- C1 witness: with a one-candle series (≤ 30 candles) the recovery
conditions fail and the amended theorem yields the closing outcome at a
concrete stop-loss hit. -/
theorem smart_loss_recovery_amended_witness :
    slHit cexPos cexTracker.stopLoss = true ∧
    evalStopLossHit zeroSqrt DEFAULT_CONFIG cexPos cexTracker 5 true (some [oneCandle]) =
      { closed := true
        tracker := none
        consecutiveWins := 0
        logs := [{ action := .SL_HIT, symbol := cexPos.symbol, type := cexPos.type,
                   price := cexPos.currentPrice,
                   profit := some (calculateProfit cexPos cexPos.currentPrice),
                   reason := "üõë Stop Loss hit! Loss: $" ++
                     toFixed 2 (calculateProfit cexPos cexPos.currentPrice) }]
        recorded := [calculateProfit cexPos cexPos.currentPrice] } := by
  have hhit : slHit cexPos cexTracker.stopLoss = true := by
    norm_num [slHit, cexPos, cexTracker]
  have h := (smart_loss_recovery_amended zeroSqrt DEFAULT_CONFIG cexPos cexTracker 5
    true [oneCandle] hhit).2.1
  exact ⟨hhit, h (by rintro ⟨_, _, _, h4, _⟩; simp at h4)⟩

end FX
